import Mathlib

/-!
Shallow embedding of prewikka/utils/cache.py (the memoization layer of the
SECEF prototype repository).

Source structure:
  class _Cache: fields _cache (dict), _times (dict), _hits, _misses,
    _duration (None or a number); methods _set, _get, clear, infos.
  class _memoize / _memoize_property / _request_memoize /
    _request_memoize_property: descriptors resolving a per-scope _Cache and
    delegating to _Cache._get.
  classes memoize, memoize_property, request_memoize,
    request_memoize_property: decorator front-ends.

Modelling choices:
  - Python values relevant to the cache keys are an inductive PyVal
    (ints, strings, tuples, lists); lists are unhashable, tuples are
    hashable iff all their elements are.
  - dicts are association lists with functional update; the key uniqueness
    of a dict is preserved by the update operation.
  - time.time() is a Nat passed explicitly as the current time of a call.
  - the wrapped computation (self._cached_func) is a pure Lean function of
    the number of previous invocations, the positional arguments and the
    keyword arguments; the invocation index models the statefulness a
    Python callable may have.  Its outcome is a value or a raised
    exception (TypeError, or a stand-in for any other exception class).
  - env.log.critical is modelled as a counter of emitted messages in the
    state; the sink never raises, so only its invocation count matters.
  - the number of invocations of the wrapped computation is tracked in the
    state (ncalls); it instruments every place where the Python source
    calls self._cached_func.
-/

/-- Python values as far as the cache layer inspects them.  A tuple is
encoded as its cons spine (tnil / tcons), a list likewise (lnil / lcons):
pyTuple and pyList below build them from Lean lists, and the encoding
preserves Python equality (two tuples are equal iff elementwise equal,
and a tuple never equals a list or a scalar; see pyTuple_inj).  Spines
whose tail is not itself a spine are junk values never produced by
pyTuple / pyList. -/
inductive PyVal : Type where
  | int : Int → PyVal
  | str : String → PyVal
  | tnil : PyVal
  | tcons : PyVal → PyVal → PyVal
  | lnil : PyVal
  | lcons : PyVal → PyVal → PyVal
deriving DecidableEq, Repr

/-- A Python tuple with the given elements. -/
def pyTuple (xs : List PyVal) : PyVal :=
  xs.foldr PyVal.tcons PyVal.tnil

/-- A Python list with the given elements. -/
def pyList (xs : List PyVal) : PyVal :=
  xs.foldr PyVal.lcons PyVal.lnil

/-- Python exceptions as far as the cache layer distinguishes them:
the except clause in _Cache._get catches exactly TypeError; otherError
stands in for every other exception class. -/
inductive PyExc : Type where
  | typeError : PyExc
  | otherError : PyExc
deriving DecidableEq, Repr

/-- Outcome of invoking a Python callable: a returned value or a raised
exception. -/
inductive PyOutcome : Type where
  | ok : PyVal → PyOutcome
  | exc : PyExc → PyOutcome
deriving DecidableEq, Repr

/-- Whether a PyVal can be used as a dict key: Python hashability.
A list is unhashable; a tuple is hashable iff all its elements are. -/
def hashable : PyVal → Bool
  | PyVal.int _ => true
  | PyVal.str _ => true
  | PyVal.tnil => true
  | PyVal.tcons x rest => hashable x && hashable rest
  | PyVal.lnil => false
  | PyVal.lcons _ _ => false

/-- Lookup in an association list modelling a Python dict. -/
def alookup {α : Type} (k : PyVal) : List (PyVal × α) → Option α
  | [] => none
  | (k2, v) :: rest => if k2 = k then some v else alookup k rest

/-- Update in an association list modelling a Python dict: replaces the
binding if the key is present, appends it otherwise. -/
def aset {α : Type} (k : PyVal) (v : α) : List (PyVal × α) → List (PyVal × α)
  | [] => [(k, v)]
  | (k2, v2) :: rest => if k2 = k then (k, v) :: rest else (k2, v2) :: aset k v rest

/-- The mutable state of one _Cache object, together with the two
instrumentation observations (log, ncalls) described in the header. -/
structure CacheState : Type where
  cache : List (PyVal × PyVal)
  times : List (PyVal × Nat)
  hits : Nat
  misses : Nat
  log : Nat
  ncalls : Nat
deriving DecidableEq, Repr

/-- The state of a freshly constructed _Cache (its __init__). -/
def initCacheState : CacheState :=
  { cache := [], times := [], hits := 0, misses := 0, log := 0, ncalls := 0 }

/-- The wrapped computation: invocation index, positional args, keyword
args, to an outcome. -/
def ComputeFn : Type := Nat → List PyVal → List (String × PyVal) → PyOutcome

/-- The namedtuple CacheInfo(hits, misses, size). -/
structure CacheInfo : Type where
  hits : Nat
  misses : Nat
  size : Nat
deriving DecidableEq, Repr

/-- The call key built by _Cache._get:
key = (args, tuple(kwargs.items())). -/
def mkKey (args : List PyVal) (kwargs : List (String × PyVal)) : PyVal :=
  pyTuple [pyTuple args,
    pyTuple (kwargs.map (fun p => pyTuple [PyVal.str p.1, p.2]))]

/-- The freshness test of _Cache._get:
not self._duration or self._times[key] + self._duration > time.time().
A duration of None or 0 is falsy, so the value is then always fresh. -/
def durFresh (d : Option Nat) (stored now : Nat) : Bool :=
  match d with
  | none => true
  | some x => if x = 0 then true else decide (now < stored + x)

/-- _Cache._set(key, value): stores value under key and records the
current time; returns the value (here: the updated state). -/
def Cache_set (st : CacheState) (key value : PyVal) (now : Nat) : CacheState :=
  { st with cache := aset key value st.cache, times := aset key now st.times }

/-- Result of a _Cache._get call: the state after the call and the
outcome returned to (or propagated at) the caller. -/
structure GetResult : Type where
  st : CacheState
  out : PyOutcome
deriving DecidableEq, Repr

/-- The miss branch of _Cache._get:
self._misses += 1; return self._set(key, self._cached_func(*args, **kwargs)).
A TypeError raised by self._cached_func is caught by the surrounding
except clause, which logs one critical message and invokes
self._cached_func a second time, uncached, that outcome propagating;
any other exception propagates at once with nothing stored. -/
def Cache_get_miss (func : ComputeFn) (now : Nat) (st : CacheState)
    (key : PyVal) (args : List PyVal) (kwargs : List (String × PyVal)) : GetResult :=
  let st1 : CacheState := { st with misses := st.misses + 1 }
  match func st1.ncalls args kwargs with
  | PyOutcome.ok v =>
      let st2 : CacheState := { st1 with ncalls := st1.ncalls + 1 }
      { st := Cache_set st2 key v now, out := PyOutcome.ok v }
  | PyOutcome.exc PyExc.typeError =>
      let st2 : CacheState := { st1 with ncalls := st1.ncalls + 1, log := st1.log + 1 }
      let out2 := func st2.ncalls args kwargs
      { st := { st2 with ncalls := st2.ncalls + 1 }, out := out2 }
  | PyOutcome.exc e =>
      { st := { st1 with ncalls := st1.ncalls + 1 }, out := PyOutcome.exc e }

/-- _Cache._get(*args, **kwargs).
key = (args, tuple(kwargs.items())); self._cache.get(key, _missing) raises
TypeError iff the key is unhashable, which the except clause turns into
one logged critical message and a direct uncached invocation of the
wrapped computation.  With a hashable key: a present and fresh value is a
hit (hits += 1, value returned); otherwise the miss branch runs.
self._times[key] is only read when the key is present in self._cache;
since _set is the sole writer of self._cache and always writes both
dicts, that read cannot fail in a reachable state (modelled with a
default of 0). -/
def Cache_get (func : ComputeFn) (d : Option Nat) (now : Nat) (st : CacheState)
    (args : List PyVal) (kwargs : List (String × PyVal)) : GetResult :=
  let key := mkKey args kwargs
  if hashable key then
    match alookup key st.cache with
    | some value =>
        if durFresh d ((alookup key st.times).getD 0) now then
          { st := { st with hits := st.hits + 1 }, out := PyOutcome.ok value }
        else
          Cache_get_miss func now st key args kwargs
    | none =>
        Cache_get_miss func now st key args kwargs
  else
    let out := func st.ncalls args kwargs
    { st := { st with log := st.log + 1, ncalls := st.ncalls + 1 }, out := out }

/-- _Cache.clear(): self._cache.clear() — only the results dict is
emptied; self._times is not touched by the source. -/
def Cache_clear (st : CacheState) : CacheState :=
  { st with cache := [] }

/-- _Cache.infos(): CacheInfo(self._hits, self._misses, len(self._cache)). -/
def Cache_infos (st : CacheState) : CacheInfo :=
  { hits := st.hits, misses := st.misses, size := st.cache.length }

/-- A _memoize descriptor: the wrapped computation, the attribute name of
the cache slot (cache_objname) and the optional duration. -/
structure Memoizer : Type where
  func : ComputeFn
  name : String
  duration : Option Nat

/-- A _memoize_property descriptor: as Memoizer, plus whether a setter
was registered via .setter (source: self._set_func, initially None). -/
structure PropMemoizer : Type where
  func : ComputeFn
  name : String
  duration : Option Nat
  hasSetter : Bool

/-- _memoize._setup_cache(obj): cache = getattr(obj, self.cache_objname,
None); if not cache, a fresh _Cache(self.func, duration=self.duration) is
attached.  A _Cache instance is always truthy and the getattr default
None is falsy, so the test is exactly slot emptiness.  Modelled on the
content of the slot; the caller stores the resulting state back into the
same slot. -/
def setup_cache (slot : Option CacheState) : CacheState :=
  slot.getD initCacheState

/-- _memoize.__call__(obj, *args, **kwargs) =
self._setup_cache(obj)._get(obj, *args, **kwargs): the instance is
prepended to the positional arguments, so it is part of the call key.
For the instance-bound variant the slot lives on obj itself. -/
def memoize_call (m : Memoizer) (now : Nat) (slot : Option CacheState)
    (obj : PyVal) (args : List PyVal) (kwargs : List (String × PyVal)) : GetResult :=
  Cache_get m.func m.duration now (setup_cache slot) (obj :: args) kwargs

/-- _request_memoize.__call__: identical code to _memoize.__call__, but
_setup_cache resolves the slot on env.request.cache instead of on obj, so
every instance reaching this memoizer during one request shares the one
slot passed here. -/
def request_memoize_call (m : Memoizer) (now : Nat) (requestSlot : Option CacheState)
    (obj : PyVal) (args : List PyVal) (kwargs : List (String × PyVal)) : GetResult :=
  Cache_get m.func m.duration now (setup_cache requestSlot) (obj :: args) kwargs

/-- _memoize_property.__get__(obj, objtype) = _memoize.__get__(...)() =
self.__call__(obj): a read is a _get with the instance as the only
positional argument, hence call key (args, kwargs) = ((obj,), ()). -/
def memoize_property_get (m : PropMemoizer) (now : Nat) (slot : Option CacheState)
    (obj : PyVal) : GetResult :=
  Cache_get m.func m.duration now (setup_cache slot) [obj] []

/-- _memoize_property.__set__(obj, value): if no setter is registered the
write returns at once (slot untouched); otherwise the setter runs (its
effect is outside the cache) and then
self._setup_cache(obj)._set((obj,), value) seeds the cache under the
1-tuple key (obj,). -/
def memoize_property_set (m : PropMemoizer) (now : Nat) (slot : Option CacheState)
    (obj value : PyVal) : Option CacheState :=
  if m.hasSetter then
    some (Cache_set (setup_cache slot) (pyTuple [obj]) value now)
  else
    slot

/-- The decorator front-end memoize(name, duration) applied to func:
memoize.__call__(func) = _memoize(func, self.name, duration=self.duration). -/
def memoize (name : String) (duration : Option Nat) (func : ComputeFn) : Memoizer :=
  { func := func, name := name, duration := duration }

/-- The decorator front-end memoize_property(name, duration) applied to
func: _memoize_property(func, self.name, duration=self.duration), whose
__init__ starts with no registered setter. -/
def memoize_property (name : String) (duration : Option Nat) (func : ComputeFn) : PropMemoizer :=
  { func := func, name := name, duration := duration, hasSetter := false }

/-- The decorator front-end request_memoize(name) applied to func:
request_memoize.__init__ takes no duration, and __call__(func) =
_request_memoize(func, self.name), so the duration defaults to None. -/
def request_memoize (name : String) (func : ComputeFn) : Memoizer :=
  { func := func, name := name, duration := none }

/-- The decorator front-end request_memoize_property(name) applied to
func: request_memoize_property.__init__ takes no duration, and
__call__(func) = _request_memoize_property(func, self.name). -/
def request_memoize_property (name : String) (func : ComputeFn) : PropMemoizer :=
  { func := func, name := name, duration := none, hasSetter := false }

/-- _memoize_property.setter(func): registers the setter and returns the
descriptor itself. -/
def PropMemoizer.setter (m : PropMemoizer) : PropMemoizer :=
  { m with hasSetter := true }

/-- Sanity of the tuple encoding: pyTuple preserves and reflects
equality, as Python tuple equality is elementwise. -/
theorem pyTuple_inj : ∀ xs ys : List PyVal, pyTuple xs = pyTuple ys → xs = ys := by
  intro xs
  induction xs with
  | nil =>
      intro ys h
      cases ys with
      | nil => rfl
      | cons y ys => simp [pyTuple] at h
  | cons x xs ih =>
      intro ys h
      cases ys with
      | nil => simp [pyTuple] at h
      | cons y ys =>
          simp only [pyTuple, List.foldr] at h
          injection h with h1 h2
          have h3 := ih ys (by simpa [pyTuple] using h2)
          rw [h1, h3]

/-- Looking up the key just stored finds the stored value. -/
theorem alookup_aset_self {α : Type} (k : PyVal) (v : α) (m : List (PyVal × α)) :
    alookup k (aset k v m) = some v := by
  induction m with
  | nil => simp [aset, alookup]
  | cons p m ih =>
      obtain ⟨k2, v2⟩ := p
      by_cases h : k2 = k
      · simp [aset, h, alookup]
      · simp [aset, h, alookup, ih]

/-- Storing under one key does not change the lookup of a different key. -/
theorem alookup_aset_of_ne {α : Type} {k k2 : PyVal} (h : k2 ≠ k) (v : α)
    (m : List (PyVal × α)) : alookup k (aset k2 v m) = alookup k m := by
  induction m with
  | nil => simp [aset, alookup, h]
  | cons p m ih =>
      obtain ⟨k3, v3⟩ := p
      by_cases h3 : k3 = k2
      · subst h3
        simp [aset, alookup, h]
      · by_cases h4 : k3 = k
        · simp [aset, alookup, h3, h4, Ne.symm h]
        · simp [aset, alookup, h3, h4, ih]

/-- Two call keys built from argument lists that differ in their first
positional argument (the owning instance) are distinct. -/
theorem mkKey_obj_inj {o1 o2 : PyVal} {args : List PyVal}
    {kwargs : List (String × PyVal)}
    (h : mkKey (o1 :: args) kwargs = mkKey (o2 :: args) kwargs) : o1 = o2 := by
  have h2 := pyTuple_inj _ _ h
  have h3 : pyTuple (o1 :: args) = pyTuple (o2 :: args) := by
    injection h2
  have h4 := pyTuple_inj _ _ h3
  injection h4

/-- A hit in _Cache._get: key hashable, value present and fresh.  The
whole effect is hits += 1 and the stored value is returned. -/
theorem Cache_get_hit (func : ComputeFn) (d : Option Nat) (now : Nat)
    (st : CacheState) (args : List PyVal) (kwargs : List (String × PyVal))
    (v : PyVal)
    (hh : hashable (mkKey args kwargs) = true)
    (hv : alookup (mkKey args kwargs) st.cache = some v)
    (hfresh : durFresh d ((alookup (mkKey args kwargs) st.times).getD 0) now = true) :
    Cache_get func d now st args kwargs =
      { st := { st with hits := st.hits + 1 }, out := PyOutcome.ok v } := by
  simp [Cache_get, hh, hv, hfresh]

/-- An absent key in _Cache._get (and hashable) routes to the miss branch. -/
theorem Cache_get_absent (func : ComputeFn) (d : Option Nat) (now : Nat)
    (st : CacheState) (args : List PyVal) (kwargs : List (String × PyVal))
    (hh : hashable (mkKey args kwargs) = true)
    (hv : alookup (mkKey args kwargs) st.cache = none) :
    Cache_get func d now st args kwargs =
      Cache_get_miss func now st (mkKey args kwargs) args kwargs := by
  simp [Cache_get, hh, hv]

/-- The miss branch when the wrapped computation returns a value: the
value is stored with the current time, misses += 1, one invocation. -/
theorem Cache_get_miss_ok (func : ComputeFn) (now : Nat) (st : CacheState)
    (key : PyVal) (args : List PyVal) (kwargs : List (String × PyVal)) (v : PyVal)
    (hf : func st.ncalls args kwargs = PyOutcome.ok v) :
    Cache_get_miss func now st key args kwargs =
      { st := Cache_set { st with misses := st.misses + 1, ncalls := st.ncalls + 1 }
          key v now,
        out := PyOutcome.ok v } := by
  simp [Cache_get_miss, hf]

/-- A present-but-stale key in _Cache._get (hashable, value present,
freshness test false) routes to the miss branch just like an absent key. -/
theorem Cache_get_stale (func : ComputeFn) (d : Option Nat) (now : Nat)
    (st : CacheState) (args : List PyVal) (kwargs : List (String × PyVal)) (v : PyVal)
    (hh : hashable (mkKey args kwargs) = true)
    (hv : alookup (mkKey args kwargs) st.cache = some v)
    (hstale : durFresh d ((alookup (mkKey args kwargs) st.times).getD 0) now = false) :
    Cache_get func d now st args kwargs =
      Cache_get_miss func now st (mkKey args kwargs) args kwargs := by
  simp [Cache_get, hh, hv, hstale]

/-- Any miss condition of _Cache._get (key absent, or present but
failing the freshness test) routes to the miss branch. -/
theorem Cache_get_miss_route (func : ComputeFn) (d : Option Nat) (now : Nat)
    (st : CacheState) (args : List PyVal) (kwargs : List (String × PyVal))
    (hh : hashable (mkKey args kwargs) = true)
    (hmiss : alookup (mkKey args kwargs) st.cache = none ∨
      durFresh d ((alookup (mkKey args kwargs) st.times).getD 0) now = false) :
    Cache_get func d now st args kwargs =
      Cache_get_miss func now st (mkKey args kwargs) args kwargs := by
  rcases hmiss with hv | hstale
  · exact Cache_get_absent func d now st args kwargs hh hv
  · rcases hcase : alookup (mkKey args kwargs) st.cache with _ | v
    · exact Cache_get_absent func d now st args kwargs hh hcase
    · exact Cache_get_stale func d now st args kwargs v hh hcase hstale

/-- A wrapped computation that always returns the int 7. -/
def constSeven : ComputeFn := fun _ _ _ => PyOutcome.ok (PyVal.int 7)

/-- The call key of a _get with the single positional argument 1. -/
def sampleKey : PyVal := mkKey [PyVal.int 1] []

/-- A cache state holding 7 under sampleKey, stored at time 3. -/
def sampleStored : CacheState := Cache_set initCacheState sampleKey (PyVal.int 7) 3

/-- C9: a lookup that hits (key present and fresh) leaves the results
dict, the timestamps dict, ncalls and misses unchanged, increments hits
by one, and returns the stored value; in particular the stored timestamp
is not refreshed, so TTL expiry runs from store time. -/
theorem C9_hit_frame (func : ComputeFn) (d : Option Nat) (now : Nat)
    (st : CacheState) (args : List PyVal) (kwargs : List (String × PyVal)) (v : PyVal)
    (hh : hashable (mkKey args kwargs) = true)
    (hv : alookup (mkKey args kwargs) st.cache = some v)
    (hfresh : durFresh d ((alookup (mkKey args kwargs) st.times).getD 0) now = true) :
    (Cache_get func d now st args kwargs).st.cache = st.cache ∧
    (Cache_get func d now st args kwargs).st.times = st.times ∧
    (Cache_get func d now st args kwargs).st.misses = st.misses ∧
    (Cache_get func d now st args kwargs).st.ncalls = st.ncalls ∧
    (Cache_get func d now st args kwargs).st.hits = st.hits + 1 ∧
    (Cache_get func d now st args kwargs).out = PyOutcome.ok v := by
  rw [Cache_get_hit func d now st args kwargs v hh hv hfresh]
  exact ⟨rfl, rfl, rfl, rfl, rfl, rfl⟩

/-- C9 witness: the hit frame property at a concrete stored state. -/
theorem C9_hit_frame_witness :
    (Cache_get constSeven (some 10) 5 sampleStored [PyVal.int 1] []).st.times =
      sampleStored.times ∧
    (Cache_get constSeven (some 10) 5 sampleStored [PyVal.int 1] []).st.misses =
      sampleStored.misses ∧
    (Cache_get constSeven (some 10) 5 sampleStored [PyVal.int 1] []).st.hits =
      sampleStored.hits + 1 := by
  have h := C9_hit_frame constSeven (some 10) 5 sampleStored [PyVal.int 1] [] (PyVal.int 7)
    (by decide) (by decide) (by decide)
  exact ⟨h.2.1, h.2.2.1, h.2.2.2.2.1⟩

/-- C10: a _Cache whose duration is 0 behaves in _get exactly like one
whose duration is None, because both are falsy in the freshness test:
stored values never expire by time. -/
theorem C10_zero_duration_never_stale (func : ComputeFn) (now : Nat)
    (st : CacheState) (args : List PyVal) (kwargs : List (String × PyVal)) :
    Cache_get func (some 0) now st args kwargs =
      Cache_get func none now st args kwargs := by
  rfl

/-- C6 counterexample: clear() empties only self._cache; the timestamps
dict keeps its entries, so the claimed keyset invariant fails after a
clear of a nonempty cache. -/
theorem C6_counterexample :
    (Cache_clear (Cache_set initCacheState (PyVal.int 0) (PyVal.int 1) 5)).times ≠ [] := by
  decide

/-- C6 amended: clear() empties the results dict (so infos() reports
size 0) and leaves hits, misses and the timestamps dict unchanged; the
leftover timestamps are harmless because _get consults a timestamp only
for a key present in the results dict. -/
theorem C6_amended_clear (st : CacheState) :
    (Cache_infos (Cache_clear st)).size = 0 ∧
    (Cache_clear st).times = st.times ∧
    (Cache_clear st).hits = st.hits ∧
    (Cache_clear st).misses = st.misses := by
  exact ⟨rfl, rfl, rfl, rfl⟩

/-- C4: when the call key is unhashable, _get catches the TypeError of
the dict lookup, emits exactly one log message, invokes the wrapped
computation once directly, returns that outcome uncached, and leaves
hits, misses, both dicts (hence size) untouched. -/
theorem C4_unkeyable_fallback (func : ComputeFn) (d : Option Nat) (now : Nat)
    (st : CacheState) (args : List PyVal) (kwargs : List (String × PyVal))
    (hh : hashable (mkKey args kwargs) = false) :
    Cache_get func d now st args kwargs =
      { st := { st with log := st.log + 1, ncalls := st.ncalls + 1 },
        out := func st.ncalls args kwargs } ∧
    Cache_infos (Cache_get func d now st args kwargs).st = Cache_infos st := by
  constructor
  · simp [Cache_get, hh]
  · simp [Cache_get, hh, Cache_infos]

/-- C4 witness: the fallback at a concrete unhashable argument (a list). -/
theorem C4_unkeyable_fallback_witness :
    hashable (mkKey [pyList []] []) = false ∧
    Cache_get constSeven none 0 initCacheState [pyList []] [] =
      { st := { initCacheState with log := 1, ncalls := 1 },
        out := PyOutcome.ok (PyVal.int 7) } := by
  refine ⟨by decide, ?_⟩
  have h := C4_unkeyable_fallback constSeven none 0 initCacheState [pyList []] [] (by decide)
  rw [h.1]
  rfl

/-- C5 counterexample: with TTL 10, a value stored at time 0 and looked
up again at time 10 (exactly store_time + ttl) is recomputed as a miss,
because the source tests times[key] + duration > now, which fails at
equality; the claim says the boundary lookup is still a hit. -/
theorem C5_boundary_counterexample :
    (Cache_get constSeven (some 10) 10
      (Cache_get constSeven (some 10) 0 initCacheState [PyVal.int 1] []).st
      [PyVal.int 1] []).st.hits = 0 ∧
    (Cache_get constSeven (some 10) 10
      (Cache_get constSeven (some 10) 0 initCacheState [PyVal.int 1] []).st
      [PyVal.int 1] []).st.misses = 2 := by
  decide

/-- C5 amended: for a configured nonzero TTL x, a stored value is fresh
iff now < store_time + x: a lookup strictly before store_time + x is a
hit; a lookup at or after store_time + x (including exactly at the
boundary) recomputes, counts as a miss, and refreshes the stored
timestamp to the lookup time. -/
theorem C5_staleness_boundary (func : ComputeFn) (x now : Nat) (st : CacheState)
    (args : List PyVal) (kwargs : List (String × PyVal)) (v w : PyVal) (tstored : Nat)
    (hx : x ≠ 0)
    (hh : hashable (mkKey args kwargs) = true)
    (hv : alookup (mkKey args kwargs) st.cache = some v)
    (ht : alookup (mkKey args kwargs) st.times = some tstored)
    (hf : func st.ncalls args kwargs = PyOutcome.ok w) :
    (now < tstored + x →
      Cache_get func (some x) now st args kwargs =
        { st := { st with hits := st.hits + 1 }, out := PyOutcome.ok v }) ∧
    (tstored + x ≤ now →
      Cache_get func (some x) now st args kwargs =
        { st := Cache_set { st with misses := st.misses + 1, ncalls := st.ncalls + 1 }
            (mkKey args kwargs) w now,
          out := PyOutcome.ok w } ∧
      alookup (mkKey args kwargs)
        (Cache_get func (some x) now st args kwargs).st.times = some now) := by
  constructor
  · intro hlt
    have hfresh : durFresh (some x) ((alookup (mkKey args kwargs) st.times).getD 0) now
        = true := by
      rw [ht]
      simp [durFresh, hx, hlt]
    exact Cache_get_hit func (some x) now st args kwargs v hh hv hfresh
  · intro hge
    have hnf : ¬ now < tstored + x := Nat.not_lt.mpr hge
    have hmiss : Cache_get func (some x) now st args kwargs =
        Cache_get_miss func now st (mkKey args kwargs) args kwargs := by
      simp [Cache_get, hh, hv, ht, durFresh, hx, hnf]
    rw [hmiss, Cache_get_miss_ok func now st (mkKey args kwargs) args kwargs w hf]
    exact ⟨rfl, by simp [Cache_set, alookup_aset_self]⟩

/-- C5 witness: the stale branch at a concrete boundary-passing input
(stored at 3, TTL 10, lookup at 13). -/
theorem C5_staleness_boundary_witness :
    Cache_get constSeven (some 10) 13 sampleStored [PyVal.int 1] [] =
      { st := Cache_set { sampleStored with misses := sampleStored.misses + 1, ncalls := sampleStored.ncalls + 1 } (mkKey [PyVal.int 1] []) (PyVal.int 7) 13,
        out := PyOutcome.ok (PyVal.int 7) } := by
  exact ((C5_staleness_boundary constSeven 10 13 sampleStored [PyVal.int 1] []
    (PyVal.int 7) (PyVal.int 7) 3 (by decide) (by decide) (by decide) (by decide)
    rfl).2 (by decide)).1

/-- A wrapped computation raising TypeError on its first invocation and
returning the int 3 afterwards; a Python callable may be stateful, so
this is a legitimate collaborator. -/
def typeErrThenThree : ComputeFn := fun n _ _ =>
  if n = 0 then PyOutcome.exc PyExc.typeError else PyOutcome.ok (PyVal.int 3)

/-- A wrapped computation that always raises a non-TypeError exception. -/
def alwaysOtherError : ComputeFn := fun _ _ _ => PyOutcome.exc PyExc.otherError

/-- C3 counterexample: a wrapped computation that raises TypeError on
its first invocation is caught by the memoization layer (the except
TypeError covers the self._cached_func call): one message is logged, the
computation is invoked a second time, and the caller here receives its
second outcome (the int 3) instead of the original exception. -/
theorem C3_typeerror_caught_counterexample :
    (Cache_get typeErrThenThree none 0 initCacheState [PyVal.int 1] []).out =
      PyOutcome.ok (PyVal.int 3) ∧
    (Cache_get typeErrThenThree none 0 initCacheState [PyVal.int 1] []).st.log = 1 ∧
    (Cache_get typeErrThenThree none 0 initCacheState [PyVal.int 1] []).st.ncalls = 2 := by
  decide

/-- C3 amended: on any miss (the key absent, or present but stale), an
exception of the wrapped computation other than TypeError propagates
unchanged with nothing stored and nothing logged (misses having been
incremented before the invocation); a TypeError from the computation is
caught, one message is logged, and the computation is invoked a second
time directly, its outcome returned or propagated uncached. -/
theorem C3_computation_failure (func : ComputeFn) (d : Option Nat) (now : Nat)
    (st : CacheState) (args : List PyVal) (kwargs : List (String × PyVal)) (e : PyExc)
    (hh : hashable (mkKey args kwargs) = true)
    (hmiss : alookup (mkKey args kwargs) st.cache = none ∨
      durFresh d ((alookup (mkKey args kwargs) st.times).getD 0) now = false)
    (hf : func st.ncalls args kwargs = PyOutcome.exc e) :
    (e = PyExc.otherError →
      Cache_get func d now st args kwargs =
        { st := { st with misses := st.misses + 1, ncalls := st.ncalls + 1 },
          out := PyOutcome.exc PyExc.otherError }) ∧
    (e = PyExc.typeError →
      (Cache_get func d now st args kwargs).st =
        { st with misses := st.misses + 1, log := st.log + 1, ncalls := st.ncalls + 2 } ∧
      (Cache_get func d now st args kwargs).out = func (st.ncalls + 1) args kwargs) := by
  rw [Cache_get_miss_route func d now st args kwargs hh hmiss]
  constructor
  · rintro rfl
    simp [Cache_get_miss, hf]
  · rintro rfl
    simp [Cache_get_miss, hf]

/-- C3 witness: a non-TypeError exception on a present-but-stale miss
(value stored at time 3, TTL 10, lookup at time 20) propagates
unchanged, with nothing stored and nothing logged. -/
theorem C3_computation_failure_witness :
    Cache_get alwaysOtherError (some 10) 20 sampleStored [PyVal.int 1] [] =
      { st := { sampleStored with misses := sampleStored.misses + 1, ncalls := sampleStored.ncalls + 1 },
        out := PyOutcome.exc PyExc.otherError } := by
  exact (C3_computation_failure alwaysOtherError (some 10) 20 sampleStored [PyVal.int 1] []
    PyExc.otherError (by decide) (Or.inr (by decide)) rfl).1 rfl

/-- A memoized property whose getter always computes the int 7 and which
has a registered setter. -/
def propWithSetter : PropMemoizer := (memoize_property "my_cache" none constSeven).setter

/-- C2: evaluation at the failing input.  With a registered setter, a
write of 1 on instance 0 seeds the cache under the 1-tuple key (obj,),
while the immediately following property read looks up the _get key
((obj,), ()): the seeded entry is invisible to the read, which therefore
recomputes (one invocation of the getter), counts a miss, and returns
the getter's 7 instead of the written 1 — contradicting the claim that
the read returns the written value without recomputation and without a
counter change. -/
theorem C2_write_read_divergence :
    memoize_property_set propWithSetter 0 none (PyVal.int 0) (PyVal.int 1) =
      some (Cache_set initCacheState (pyTuple [PyVal.int 0]) (PyVal.int 1) 0) ∧
    alookup (mkKey [PyVal.int 0] [])
      (Cache_set initCacheState (pyTuple [PyVal.int 0]) (PyVal.int 1) 0).cache = none ∧
    (memoize_property_get propWithSetter 0
      (memoize_property_set propWithSetter 0 none (PyVal.int 0) (PyVal.int 1))
      (PyVal.int 0)).out = PyOutcome.ok (PyVal.int 7) ∧
    (memoize_property_get propWithSetter 0
      (memoize_property_set propWithSetter 0 none (PyVal.int 0) (PyVal.int 1))
      (PyVal.int 0)).st.misses = 1 ∧
    (memoize_property_get propWithSetter 0
      (memoize_property_set propWithSetter 0 none (PyVal.int 0) (PyVal.int 1))
      (PyVal.int 0)).st.ncalls = 1 := by
  decide

/-- Repeated _Cache._get calls with fixed arguments, one per entry of the
list of lookup times: final state and the outcome of each call. -/
def runCalls (func : ComputeFn) (d : Option Nat) (args : List PyVal)
    (kwargs : List (String × PyVal)) :
    CacheState → List Nat → CacheState × List PyOutcome
  | st, [] => (st, [])
  | st, t :: ts =>
      let r := Cache_get func d t st args kwargs
      let rest := runCalls func d args kwargs r.st ts
      (rest.1, r.out :: rest.2)

/-- While the stored value stays fresh at every lookup time, a run of
repeated calls is all hits: only the hits counter moves, and every call
returns the stored value. -/
theorem runCalls_all_hits (func : ComputeFn) (d : Option Nat) (args : List PyVal)
    (kwargs : List (String × PyVal)) (v : PyVal) :
    ∀ (ts : List Nat) (st : CacheState),
      hashable (mkKey args kwargs) = true →
      alookup (mkKey args kwargs) st.cache = some v →
      (∀ t2 ∈ ts, durFresh d ((alookup (mkKey args kwargs) st.times).getD 0) t2 = true) →
      runCalls func d args kwargs st ts =
        ({ st with hits := st.hits + ts.length },
          List.replicate ts.length (PyOutcome.ok v)) := by
  intro ts
  induction ts with
  | nil =>
      intro st hh hv htm
      simp [runCalls]
  | cons t ts ih =>
      intro st hh hv htm
      have hfresh : durFresh d ((alookup (mkKey args kwargs) st.times).getD 0) t = true :=
        htm t (List.mem_cons_self t ts)
      have h1 := Cache_get_hit func d t st args kwargs v hh hv hfresh
      have h2 := ih { st with hits := st.hits + 1 } hh hv
        (fun t2 h2t => htm t2 (List.mem_cons_of_mem t h2t))
      simp only [runCalls, h1, h2]
      simp only [Prod.mk.injEq, List.length_cons, List.replicate_succ, List.cons.injEq]
      refine ⟨?_, trivial⟩
      congr 1
      omega

/-- C1: a sequence of _get calls with identical hashable arguments,
starting from a state where the key is absent, with every later lookup
time inside the freshness window of the first store: the wrapped
computation is invoked exactly once (on the first call), every call
returns the same value, hits grows by one per subsequent call, and
misses grows only by the first call. -/
theorem C1_single_invocation (func : ComputeFn) (d : Option Nat) (args : List PyVal)
    (kwargs : List (String × PyVal)) (v : PyVal) (st0 : CacheState) (t : Nat)
    (ts : List Nat)
    (hh : hashable (mkKey args kwargs) = true)
    (habs : alookup (mkKey args kwargs) st0.cache = none)
    (hf : func st0.ncalls args kwargs = PyOutcome.ok v)
    (hwin : ∀ t2 ∈ ts, durFresh d t t2 = true) :
    (runCalls func d args kwargs st0 (t :: ts)).2 =
      List.replicate (ts.length + 1) (PyOutcome.ok v) ∧
    (runCalls func d args kwargs st0 (t :: ts)).1.ncalls = st0.ncalls + 1 ∧
    (runCalls func d args kwargs st0 (t :: ts)).1.hits = st0.hits + ts.length ∧
    (runCalls func d args kwargs st0 (t :: ts)).1.misses = st0.misses + 1 := by
  have h1 : Cache_get func d t st0 args kwargs =
      { st := Cache_set { st0 with misses := st0.misses + 1, ncalls := st0.ncalls + 1 } (mkKey args kwargs) v t,
        out := PyOutcome.ok v } := by
    rw [Cache_get_absent func d t st0 args kwargs hh habs,
      Cache_get_miss_ok func t st0 (mkKey args kwargs) args kwargs v hf]
  have hv1 : alookup (mkKey args kwargs)
      (Cache_set { st0 with misses := st0.misses + 1, ncalls := st0.ncalls + 1 } (mkKey args kwargs) v t).cache = some v := by
    simp [Cache_set, alookup_aset_self]
  have ht1 : alookup (mkKey args kwargs)
      (Cache_set { st0 with misses := st0.misses + 1, ncalls := st0.ncalls + 1 } (mkKey args kwargs) v t).times = some t := by
    simp [Cache_set, alookup_aset_self]
  have h2 := runCalls_all_hits func d args kwargs v ts
    (Cache_set { st0 with misses := st0.misses + 1, ncalls := st0.ncalls + 1 } (mkKey args kwargs) v t)
    hh hv1 (by rw [ht1]; exact hwin)
  simp only [runCalls, h1, h2]
  refine ⟨?_, rfl, ?_, rfl⟩
  · simp [List.replicate_succ]
  · simp [Cache_set]

/-- C1 witness: three calls with argument 1 at times 0, 1, 2 under a TTL
of 10: one invocation, one miss, two hits, all returning 7. -/
theorem C1_single_invocation_witness :
    (runCalls constSeven (some 10) [PyVal.int 1] [] initCacheState [0, 1, 2]).2 =
      List.replicate 3 (PyOutcome.ok (PyVal.int 7)) ∧
    (runCalls constSeven (some 10) [PyVal.int 1] [] initCacheState [0, 1, 2]).1.ncalls = 1 ∧
    (runCalls constSeven (some 10) [PyVal.int 1] [] initCacheState [0, 1, 2]).1.hits = 2 ∧
    (runCalls constSeven (some 10) [PyVal.int 1] [] initCacheState [0, 1, 2]).1.misses = 1 := by
  exact C1_single_invocation constSeven (some 10) [PyVal.int 1] [] (PyVal.int 7)
    initCacheState 0 [1, 2] (by decide) rfl rfl (by decide)

/-- The three-call scenario of one request: instance obj1, then instance
obj2, then obj1 again, all resolved through the single request-scoped
slot (the attribute on env.request.cache), which starts empty. -/
def requestSeq (m : Memoizer) (t1 t2 t3 : Nat) (obj1 obj2 : PyVal)
    (args : List PyVal) (kwargs : List (String × PyVal)) :
    GetResult × GetResult × GetResult :=
  let r1 := request_memoize_call m t1 none obj1 args kwargs
  let r2 := request_memoize_call m t2 (some r1.st) obj2 args kwargs
  let r3 := request_memoize_call m t3 (some r2.st) obj1 args kwargs
  (r1, r2, r3)

/-- C7: during one request, two distinct instances calling the same
request-scoped memoized computation share the single Entry attached to
the request storage (its counters accumulate across both), while the
call key contains the calling instance, so their results occupy two
distinct entries: obj2's miss does not overwrite obj1's value, and
obj1's second call is a hit returning its own value. -/
theorem C7_request_scope_sharing (func : ComputeFn) (name : String)
    (obj1 obj2 : PyVal) (args : List PyVal) (kwargs : List (String × PyVal))
    (v1 v2 : PyVal) (t1 t2 t3 : Nat)
    (hne : obj1 ≠ obj2)
    (hh1 : hashable (mkKey (obj1 :: args) kwargs) = true)
    (hh2 : hashable (mkKey (obj2 :: args) kwargs) = true)
    (hf1 : ∀ n, func n (obj1 :: args) kwargs = PyOutcome.ok v1)
    (hf2 : ∀ n, func n (obj2 :: args) kwargs = PyOutcome.ok v2) :
    (requestSeq (request_memoize name func) t1 t2 t3 obj1 obj2 args kwargs).1.out =
      PyOutcome.ok v1 ∧
    (requestSeq (request_memoize name func) t1 t2 t3 obj1 obj2 args kwargs).2.1.out =
      PyOutcome.ok v2 ∧
    (requestSeq (request_memoize name func) t1 t2 t3 obj1 obj2 args kwargs).2.2.out =
      PyOutcome.ok v1 ∧
    (requestSeq (request_memoize name func) t1 t2 t3 obj1 obj2 args kwargs).2.2.st.hits = 1 ∧
    (requestSeq (request_memoize name func) t1 t2 t3 obj1 obj2 args kwargs).2.2.st.misses = 2 ∧
    (Cache_infos (requestSeq (request_memoize name func) t1 t2 t3 obj1 obj2 args kwargs).2.1.st).size = 2 := by
  have hkne : mkKey (obj1 :: args) kwargs ≠ mkKey (obj2 :: args) kwargs :=
    fun h => hne (mkKey_obj_inj h)
  have h1 := (Cache_get_absent func none t1 initCacheState (obj1 :: args) kwargs hh1
    rfl).trans (Cache_get_miss_ok func t1 initCacheState (mkKey (obj1 :: args) kwargs)
      (obj1 :: args) kwargs v1 (hf1 _))
  have habs2 : alookup (mkKey (obj2 :: args) kwargs)
      (Cache_set { initCacheState with misses := initCacheState.misses + 1, ncalls := initCacheState.ncalls + 1 } (mkKey (obj1 :: args) kwargs) v1 t1).cache = none := by
    simp [Cache_set, initCacheState, alookup_aset_of_ne hkne, alookup, hkne]
  have h2 := (Cache_get_absent func none t2
    (Cache_set { initCacheState with misses := initCacheState.misses + 1, ncalls := initCacheState.ncalls + 1 } (mkKey (obj1 :: args) kwargs) v1 t1)
    (obj2 :: args) kwargs hh2 habs2).trans
    (Cache_get_miss_ok func t2
      (Cache_set { initCacheState with misses := initCacheState.misses + 1, ncalls := initCacheState.ncalls + 1 } (mkKey (obj1 :: args) kwargs) v1 t1)
      (mkKey (obj2 :: args) kwargs) (obj2 :: args) kwargs v2 (hf2 _))
  have hv3 : alookup (mkKey (obj1 :: args) kwargs)
      (Cache_set { (Cache_set { initCacheState with misses := initCacheState.misses + 1, ncalls := initCacheState.ncalls + 1 } (mkKey (obj1 :: args) kwargs) v1 t1) with misses := (Cache_set { initCacheState with misses := initCacheState.misses + 1, ncalls := initCacheState.ncalls + 1 } (mkKey (obj1 :: args) kwargs) v1 t1).misses + 1, ncalls := (Cache_set { initCacheState with misses := initCacheState.misses + 1, ncalls := initCacheState.ncalls + 1 } (mkKey (obj1 :: args) kwargs) v1 t1).ncalls + 1 } (mkKey (obj2 :: args) kwargs) v2 t2).cache = some v1 := by
    simp [Cache_set, initCacheState, alookup_aset_of_ne (Ne.symm hkne), alookup_aset_self, hkne]
  have h3 := Cache_get_hit func none t3
    (Cache_set { (Cache_set { initCacheState with misses := initCacheState.misses + 1, ncalls := initCacheState.ncalls + 1 } (mkKey (obj1 :: args) kwargs) v1 t1) with misses := (Cache_set { initCacheState with misses := initCacheState.misses + 1, ncalls := initCacheState.ncalls + 1 } (mkKey (obj1 :: args) kwargs) v1 t1).misses + 1, ncalls := (Cache_set { initCacheState with misses := initCacheState.misses + 1, ncalls := initCacheState.ncalls + 1 } (mkKey (obj1 :: args) kwargs) v1 t1).ncalls + 1 } (mkKey (obj2 :: args) kwargs) v2 t2)
    (obj1 :: args) kwargs v1 hh1 hv3 rfl
  simp only [requestSeq, request_memoize_call, request_memoize, setup_cache, Option.getD]
  simp only [h1]
  simp only [h2]
  simp only [h3]
  refine ⟨trivial, trivial, trivial, ?_, ?_, ?_⟩
  · simp [Cache_set, initCacheState]
  · simp [Cache_set, initCacheState]
  · simp [Cache_infos, Cache_set, initCacheState, aset, hkne]

/-- A wrapped computation returning 10 when called on instance 1 and 20
otherwise (its first positional argument is the instance). -/
def pickByObj : ComputeFn := fun _ args _ =>
  if args = [PyVal.int 1] then PyOutcome.ok (PyVal.int 10) else PyOutcome.ok (PyVal.int 20)

/-- C7 witness: the request-sharing scenario at concrete instances 1 and
2, times 0, 1, 2. -/
theorem C7_request_scope_sharing_witness :
    (requestSeq (request_memoize "slot" pickByObj) 0 1 2 (PyVal.int 1) (PyVal.int 2) [] []).2.2.out =
      PyOutcome.ok (PyVal.int 10) ∧
    (requestSeq (request_memoize "slot" pickByObj) 0 1 2 (PyVal.int 1) (PyVal.int 2) [] []).2.2.st.hits = 1 ∧
    (requestSeq (request_memoize "slot" pickByObj) 0 1 2 (PyVal.int 1) (PyVal.int 2) [] []).2.2.st.misses = 2 := by
  have h := C7_request_scope_sharing pickByObj "slot" (PyVal.int 1) (PyVal.int 2) [] []
    (PyVal.int 10) (PyVal.int 20) 0 1 2 (by decide) (by decide) (by decide)
    (fun _ => rfl) (fun _ => rfl)
  exact ⟨h.2.2.1, h.2.2.2.1, h.2.2.2.2.1⟩

/-- C8 counterexample: the request-scoped front-ends take no TTL
parameter at all (request_memoize.__init__(self, name)); the memoizers
they build always carry duration None, so a TTL such as 5 cannot be
attached through them, contrary to the claim that all four front-ends
accept an optional TTL. -/
theorem C8_request_ttl_counterexample :
    (request_memoize "slot" constSeven).duration = none ∧
    (request_memoize_property "slot" constSeven).duration = none ∧
    (request_memoize "slot" constSeven).duration ≠ some 5 := by
  refine ⟨rfl, rfl, ?_⟩
  intro h
  simp [request_memoize] at h

/-- C8 amended: the two instance-bound front-ends accept and attach an
optional TTL together with the storage-slot name, and a memoizer built
by memoize passes exactly that TTL to the _Cache it creates on first
use; the two request-scoped front-ends accept only a slot name and
always build their memoizer with duration None. -/
theorem C8_front_end_configuration (name : String) (d : Option Nat) (func : ComputeFn) :
    (memoize name d func).duration = d ∧
    (memoize name d func).name = name ∧
    (memoize_property name d func).duration = d ∧
    (memoize_property name d func).name = name ∧
    (request_memoize name func).duration = none ∧
    (request_memoize name func).name = name ∧
    (request_memoize_property name func).duration = none ∧
    (request_memoize_property name func).name = name ∧
    (∀ now obj args kwargs,
      memoize_call (memoize name d func) now none obj args kwargs =
        Cache_get func d now initCacheState (obj :: args) kwargs) :=
  ⟨rfl, rfl, rfl, rfl, rfl, rfl, rfl, rfl, fun _ _ _ _ => rfl⟩
